import Mathlib

/-!
Shallow embedding of the authentication / token-lifecycle core of the
Book-Store backend (auth.service, token.service, user.service and the knex
`users` / `tokens` tables).

Modelling conventions:
* Timestamps are Unix seconds (`Nat`), matching `moment().unix()` truncation.
* A JWT string is modelled abstractly: `jwt.sign` with HS256 is deterministic,
  so a signed token string is fully determined by its payload and signing key
  (identical payload + key gives the identical string); any other string is
  structurally unparsable.
* `jwt.verify` checks the signature against the expected key first, then the
  `exp` claim with `clockTimestamp >= exp` counting as expired, mirroring
  jsonwebtoken.
* The bcrypt primitives `encryptPassword` / `isPasswordMatch` are modelled by
  an abstract digest function carried in the configuration: `isPasswordMatch`
  compares the digest of the plaintext with the stored digest.
* The Postgres store is a pair of row lists (`users`, `tokens`); knex
  `.where(...).first()` is `List.find?`, `.del()` is `List.filter`,
  `.insert(...)` appends a row with the next autoincrement id.
* Store-connectivity failure is modelled by a `storeDown` flag on the store
  state: while it is set, every knex access rejects with `Err.StoreFailure`
  (a rejected promise from the driver), and `await` turns that rejection into
  a thrown error at the call site.
* Each operation threads the store state explicitly and returns
  `Except Err α × DB`; the state component is the state after the operation,
  also on the error path (a thrown error does not roll anything back).
* The bookkeeping columns `created_at` / `updated_at` are omitted: the auth
  core never reads them.
-/

namespace BookStore

/-- The `token_type` enum from the knex migration / `src/types/knex`. -/
inductive TokenType
  | ACCESS
  | REFRESH
  | RESET_PASSWORD
  | VERIFY_EMAIL
deriving DecidableEq

/-- The `role` enum of the `users` table. -/
inductive Role
  | USER
  | ADMIN
deriving DecidableEq

/-- A row of the `users` table (timestamps omitted, see module header). -/
structure User where
  id : Nat
  email : String
  name : Option String
  password : String
  role : Role
  is_email_verified : Bool
deriving DecidableEq

/-- The result of `exclude(user, ['password'])`: the user record with the
password field stripped. -/
structure SafeUser where
  id : Nat
  email : String
  name : Option String
  role : Role
  is_email_verified : Bool
deriving DecidableEq

/-- `exclude(user, ['password'])`. -/
def exclude (u : User) : SafeUser :=
  ⟨u.id, u.email, u.name, u.role, u.is_email_verified⟩

/-- A JWT string, modelled abstractly (see module header): a well-formed
signed token is determined by its payload claims and signing key; `garbage`
stands for any structurally unparsable string. -/
inductive TokenStr
  | signed (sub iat exp : Nat) (type : TokenType) (key : String)
  | garbage (s : String)
deriving DecidableEq

/-- The decoded claim set returned by `jwt.verify`. -/
structure JwtPayload where
  sub : Nat
  iat : Nat
  exp : Nat
  type : TokenType
deriving DecidableEq

/-- A row of the `tokens` table (the token ledger). -/
structure Token where
  id : Nat
  token : TokenStr
  type : TokenType
  expires : Nat
  blacklisted : Bool
  user_id : Nat
deriving DecidableEq

/-- The backing store: both tables, the autoincrement counter of `tokens.id`,
and the connectivity flag (see module header). -/
structure DB where
  users : List User
  tokens : List Token
  nextTokenId : Nat
  storeDown : Bool
deriving DecidableEq

/-- Errors thrown by the core. `ApiError` carries the http status and message;
`JwtError` is a jsonwebtoken verification failure; `TokenNotFoundError` is the
plain `new Error('Token not found')` of `verifyToken`; `EmptyError` the bare
`new Error()` of `resetPassword`; `StoreFailure` a store-connectivity
rejection surfaced by `await`. -/
inductive Err
  | ApiError (statusCode : Nat) (message : String)
  | JwtError (message : String)
  | TokenNotFoundError
  | EmptyError
  | StoreFailure
deriving DecidableEq

/-- `config.jwt` together with the abstract password-digest function. -/
structure Config where
  secret : String
  accessExpirationMinutes : Nat
  refreshExpirationDays : Nat
  resetPasswordExpirationMinutes : Nat
  verifyEmailExpirationMinutes : Nat
  hashFn : String → String

/-- `encryptPassword(password)` from utils/encryption. -/
def encryptPassword (cfg : Config) (password : String) : String :=
  cfg.hashFn password

/-- `isPasswordMatch(password, userPassword)` from utils/encryption. -/
def isPasswordMatch (cfg : Config) (password userPassword : String) : Bool :=
  cfg.hashFn password == userPassword

/-- `jwt.verify(token, secret)` at clock time `now`: signature check first,
then the `exp` claim with `now ≥ exp` counting as expired. -/
def jwtVerify (now : Nat) (t : TokenStr) (secret : String) : Except Err JwtPayload :=
  match t with
  | .garbage _ => .error (.JwtError "jwt malformed")
  | .signed sub iat exp ty key =>
      if key = secret then
        if exp ≤ now then .error (.JwtError "jwt expired")
        else .ok ⟨sub, iat, exp, ty⟩
      else .error (.JwtError "invalid signature")

/-- `generateToken(userId, expires, type, secret)` of token.service; `now` is
the clock read `moment().unix()` producing the `iat` claim. -/
def generateToken (now : Nat) (userId : Nat) (expires : Nat) (type : TokenType)
    (secret : String) : TokenStr :=
  .signed userId now expires type secret

/-- `saveToken(token, userId, expires, type, blacklisted = false)` of
token.service: inserts a `tokens` row. -/
def saveToken (token : TokenStr) (userId : Nat) (expires : Nat) (type : TokenType)
    (db : DB) : Except Err Token × DB :=
  if db.storeDown then (.error .StoreFailure, db)
  else
    let createdToken : Token := ⟨db.nextTokenId, token, type, expires, false, userId⟩
    (.ok createdToken,
     { db with tokens := db.tokens ++ [createdToken], nextTokenId := db.nextTokenId + 1 })

/-- The knex filter of `verifyToken`:
`where({ token, type, user_id: userId, blacklisted: false })`. -/
def matchesToken (token : TokenStr) (type : TokenType) (userId : Nat) (r : Token) : Bool :=
  r.token == token && r.type == type && r.user_id == userId && r.blacklisted == false

/-- `verifyToken(token, type)` of token.service: `jwt.verify`, then ledger
lookup by (token, type, user_id from the `sub` claim, blacklisted = false);
throws `new Error('Token not found')` on a ledger miss. -/
def verifyToken (cfg : Config) (now : Nat) (token : TokenStr) (type : TokenType)
    (db : DB) : Except Err Token × DB :=
  match jwtVerify now token cfg.secret with
  | .error e => (.error e, db)
  | .ok payload =>
      if db.storeDown then (.error .StoreFailure, db)
      else
        match db.tokens.find? (matchesToken token type payload.sub) with
        | none => (.error .TokenNotFoundError, db)
        | some tokenData => (.ok tokenData, db)

/-- The `{ token, expires }` halves of an `AuthTokensResponse`. -/
structure TokenWithExpiry where
  token : TokenStr
  expires : Nat
deriving DecidableEq

/-- `AuthTokensResponse` from src/types/response. -/
structure AuthTokensResponse where
  access : TokenWithExpiry
  refresh : TokenWithExpiry
deriving DecidableEq

/-- `generateAuthTokens(user)` of token.service: mints an ACCESS token (not
persisted) and a REFRESH token (persisted via `saveToken`). -/
def generateAuthTokens (cfg : Config) (now : Nat) (userId : Nat) (db : DB) :
    Except Err AuthTokensResponse × DB :=
  let accessTokenExpires := now + cfg.accessExpirationMinutes * 60
  let accessToken := generateToken now userId accessTokenExpires .ACCESS cfg.secret
  let refreshTokenExpires := now + cfg.refreshExpirationDays * 86400
  let refreshToken := generateToken now userId refreshTokenExpires .REFRESH cfg.secret
  match saveToken refreshToken userId refreshTokenExpires .REFRESH db with
  | (.error e, db1) => (.error e, db1)
  | (.ok _, db1) =>
      (.ok ⟨⟨accessToken, accessTokenExpires⟩, ⟨refreshToken, refreshTokenExpires⟩⟩, db1)

/-- `generateResetPasswordToken(email)` of token.service: 404 when no user has
the email, otherwise mint and persist a RESET_PASSWORD token with the
configured reset lifetime and return it. -/
def generateResetPasswordToken (cfg : Config) (now : Nat) (email : String) (db : DB) :
    Except Err TokenStr × DB :=
  if db.storeDown then (.error .StoreFailure, db)
  else
    match db.users.find? (fun u => u.email == email) with
    | none => (.error (.ApiError 404 "No users found with this email"), db)
    | some user =>
        let expires := now + cfg.resetPasswordExpirationMinutes * 60
        let resetPasswordToken := generateToken now user.id expires .RESET_PASSWORD cfg.secret
        match saveToken resetPasswordToken user.id expires .RESET_PASSWORD db with
        | (.error e, db1) => (.error e, db1)
        | (.ok _, db1) => (.ok resetPasswordToken, db1)

/-- `generateVerifyEmailToken(user)` of token.service. -/
def generateVerifyEmailToken (cfg : Config) (now : Nat) (userId : Nat) (db : DB) :
    Except Err TokenStr × DB :=
  let expires := now + cfg.verifyEmailExpirationMinutes * 60
  let verifyEmailToken := generateToken now userId expires .VERIFY_EMAIL cfg.secret
  match saveToken verifyEmailToken userId expires .VERIFY_EMAIL db with
  | (.error e, db1) => (.error e, db1)
  | (.ok _, db1) => (.ok verifyEmailToken, db1)

/-- The partial update body accepted by `updateUserById` (only the fields the
auth core ever writes, plus `email` which gates the uniqueness check). -/
structure UserUpdate where
  email : Option String
  password : Option String
  is_email_verified : Option Bool
deriving DecidableEq

/-- Knex `.update(updateBody)` applied to one row. -/
def applyUpdate (b : UserUpdate) (u : User) : User :=
  { u with
    email := b.email.getD u.email
    password := b.password.getD u.password
    is_email_verified := b.is_email_verified.getD u.is_email_verified }

/-- `updateUserById(userId, updateBody)` of user.service: 404 when the user is
absent, 400 when the updated email is already taken, otherwise update the
row. -/
def updateUserById (userId : Nat) (updateBody : UserUpdate) (db : DB) :
    Except Err Unit × DB :=
  if db.storeDown then (.error .StoreFailure, db)
  else if (db.users.find? (fun u => u.id == userId)).isNone then
    (.error (.ApiError 404 "User not found"), db)
  else if updateBody.email.isSome &&
      (db.users.find? (fun u => some u.email == updateBody.email)).isSome then
    (.error (.ApiError 400 "Email already taken"), db)
  else
    (.ok (),
     { db with
        users := db.users.map (fun u => if u.id == userId then applyUpdate updateBody u else u) })

/-- `loginUserWithEmailAndPassword(email, password)` of auth.service: one
401 "Incorrect email or password" for both a missing user and a hash
mismatch; on match, the user record with the password stripped. -/
def loginUserWithEmailAndPassword (cfg : Config) (email password : String) (db : DB) :
    Except Err SafeUser × DB :=
  if db.storeDown then (.error .StoreFailure, db)
  else
    match db.users.find? (fun u => u.email == email) with
    | none => (.error (.ApiError 401 "Incorrect email or password"), db)
    | some user =>
        if isPasswordMatch cfg password user.password then (.ok (exclude user), db)
        else (.error (.ApiError 401 "Incorrect email or password"), db)

/-- `logout(refreshToken)` of auth.service: find the first non-blacklisted
REFRESH row holding the token string (no owner filter), 404 when absent,
otherwise delete by that row's id. -/
def logout (refreshToken : TokenStr) (db : DB) : Except Err Unit × DB :=
  if db.storeDown then (.error .StoreFailure, db)
  else
    match db.tokens.find? (fun r =>
        r.token == refreshToken && r.type == TokenType.REFRESH && r.blacklisted == false) with
    | none => (.error (.ApiError 404 "Not found"), db)
    | some refreshTokenData =>
        if db.storeDown then (.error .StoreFailure, db)
        else
          (.ok (),
           { db with tokens := db.tokens.filter (fun r => r.id != refreshTokenData.id) })

/-- `refreshAuth(refreshToken)` of auth.service: verify, delete the found row
by id, mint a fresh pair; the surrounding try/catch re-maps ANY thrown error
(jwt, ledger miss, or store failure) to 401 "Please authenticate". -/
def refreshAuth (cfg : Config) (now : Nat) (refreshToken : TokenStr) (db : DB) :
    Except Err AuthTokensResponse × DB :=
  match verifyToken cfg now refreshToken .REFRESH db with
  | (.error _, db1) => (.error (.ApiError 401 "Please authenticate"), db1)
  | (.ok refreshTokenData, db1) =>
      if db1.storeDown then (.error (.ApiError 401 "Please authenticate"), db1)
      else
        let db2 := { db1 with tokens := db1.tokens.filter (fun r => r.id != refreshTokenData.id) }
        match generateAuthTokens cfg now refreshTokenData.user_id db2 with
        | (.error _, db3) => (.error (.ApiError 401 "Please authenticate"), db3)
        | (.ok res, db3) => (.ok res, db3)

/-- `resetPassword(resetPasswordToken, newPassword)` of auth.service: verify,
load the owner, hash and store the new password, purge every RESET_PASSWORD
row of the owner; the try/catch re-maps ANY thrown error to
401 "Password reset failed". -/
def resetPassword (cfg : Config) (now : Nat) (resetPasswordToken : TokenStr)
    (newPassword : String) (db : DB) : Except Err Unit × DB :=
  match verifyToken cfg now resetPasswordToken .RESET_PASSWORD db with
  | (.error _, db1) => (.error (.ApiError 401 "Password reset failed"), db1)
  | (.ok tokenData, db1) =>
      if db1.storeDown then (.error (.ApiError 401 "Password reset failed"), db1)
      else
        match db1.users.find? (fun u => u.id == tokenData.user_id) with
        | none => (.error (.ApiError 401 "Password reset failed"), db1)
        | some user =>
            match updateUserById user.id ⟨none, some (encryptPassword cfg newPassword), none⟩ db1 with
            | (.error _, db2) => (.error (.ApiError 401 "Password reset failed"), db2)
            | (.ok _, db2) =>
                if db2.storeDown then (.error (.ApiError 401 "Password reset failed"), db2)
                else
                  (.ok (),
                   { db2 with tokens := db2.tokens.filter (fun r =>
                       !(r.user_id == user.id && r.type == TokenType.RESET_PASSWORD)) })

/-- `verifyEmail(verifyEmailToken)` of auth.service: verify, purge every
VERIFY_EMAIL row of the owner, then set the verified flag; the try/catch
re-maps ANY thrown error to 401 "Email verification failed". Note the purge
happens BEFORE the user update. -/
def verifyEmail (cfg : Config) (now : Nat) (verifyEmailToken : TokenStr) (db : DB) :
    Except Err Unit × DB :=
  match verifyToken cfg now verifyEmailToken .VERIFY_EMAIL db with
  | (.error _, db1) => (.error (.ApiError 401 "Email verification failed"), db1)
  | (.ok tokenData, db1) =>
      if db1.storeDown then (.error (.ApiError 401 "Email verification failed"), db1)
      else
        let db2 := { db1 with tokens := db1.tokens.filter (fun r =>
            !(r.user_id == tokenData.user_id && r.type == TokenType.VERIFY_EMAIL)) }
        match updateUserById tokenData.user_id ⟨none, none, some true⟩ db2 with
        | (.error _, db3) => (.error (.ApiError 401 "Email verification failed"), db3)
        | (.ok _, db3) => (.ok (), db3)

/-- Whether an operation result is a success (promise resolved rather than
rejected). -/
def isOkE {α : Type} (e : Except Err α) : Bool :=
  match e with
  | .ok _ => true
  | .error _ => false

/-- A concrete configuration for concrete runs: 30-minute access tokens,
1-day renewal tokens, 30-minute reset and verification tokens, identity
digest. -/
def cfgEx : Config := ⟨"k", 30, 1, 30, 30, fun s => s⟩

/-- A concrete user row. -/
def userEx : User := ⟨1, "a@x.com", none, "p", .USER, false⟩

/-- The renewal token minted by `generateAuthTokens cfgEx 0 1`:
`sub = 1`, `iat = 0`, `exp = 86400`, type REFRESH, key "k". -/
def tEx : TokenStr := .signed 1 0 86400 .REFRESH "k"

/-! ## Helper lemmas -/

/-- A successful `verifyToken` run: valid signature, unexpired `exp` claim,
store up, and a matching non-blacklisted ledger row. -/
theorem verifyToken_eq_ok (cfg : Config) (now uid iat exp : Nat) (ty0 ty : TokenType)
    (db : DB) (row : Token)
    (hsd : db.storeDown = false) (hexp : now < exp)
    (hfind : db.tokens.find? (matchesToken (.signed uid iat exp ty0 cfg.secret) ty uid) =
      some row) :
    verifyToken cfg now (.signed uid iat exp ty0 cfg.secret) ty db = (.ok row, db) := by
  simp only [verifyToken, jwtVerify, if_pos rfl, if_true, if_neg (Nat.not_le.mpr hexp), hsd,
    Bool.false_eq_true, if_false, hfind]

/-- A row found by `verifyToken`'s ledger filter carries the requested type
and the subject from the claims, and holds the token string. -/
theorem matchesToken_eq_true (t : TokenStr) (ty : TokenType) (uid : Nat) (r : Token)
    (h : matchesToken t ty uid r = true) :
    r.token = t ∧ r.type = ty ∧ r.user_id = uid ∧ r.blacklisted = false := by
  simp only [matchesToken, Bool.and_eq_true, beq_iff_eq] at h
  exact ⟨h.1.1.1, h.1.1.2, h.1.2, h.2⟩

/-! ## Claims -/

/-- C3: verifying a token produced by signing {subject, issuedAt, expiry,
type} with the same key recovers the identical claim set, and when a matching
non-blacklisted ledger entry exists, `verifyToken` succeeds returning that
entry, whose owner and type agree with the claims, provided the verification
time is strictly before the expiry. -/
theorem C3_sign_verify_roundtrip (cfg : Config) (uid iat exp now : Nat) (ty : TokenType)
    (db : DB) (row : Token)
    (hnow : now < exp)
    (hsd : db.storeDown = false)
    (hfind : db.tokens.find? (matchesToken (generateToken iat uid exp ty cfg.secret) ty uid) =
      some row) :
    jwtVerify now (generateToken iat uid exp ty cfg.secret) cfg.secret = .ok ⟨uid, iat, exp, ty⟩ ∧
    verifyToken cfg now (generateToken iat uid exp ty cfg.secret) ty db = (.ok row, db) ∧
    row.user_id = uid ∧ row.type = ty := by
  have hrow := List.find?_some hfind
  obtain ⟨-, hty, huid, -⟩ := matchesToken_eq_true _ _ _ _ hrow
  refine ⟨?_, ?_, huid, hty⟩
  · simp only [generateToken, jwtVerify, if_pos rfl, if_true, if_neg (Nat.not_le.mpr hnow)]
  · exact verifyToken_eq_ok cfg now uid iat exp ty ty db row hsd hnow hfind

/-- C3 witness. -/
theorem C3_sign_verify_roundtrip_witness :
    jwtVerify 5 (generateToken 0 7 10 .REFRESH "k") "k" = .ok ⟨7, 0, 10, .REFRESH⟩ ∧
    verifyToken ⟨"k", 30, 1, 30, 30, fun s => s⟩ 5 (generateToken 0 7 10 .REFRESH "k") .REFRESH
      ⟨[], [⟨0, .signed 7 0 10 .REFRESH "k", .REFRESH, 10, false, 7⟩], 1, false⟩ =
      (.ok ⟨0, .signed 7 0 10 .REFRESH "k", .REFRESH, 10, false, 7⟩,
       ⟨[], [⟨0, .signed 7 0 10 .REFRESH "k", .REFRESH, 10, false, 7⟩], 1, false⟩) ∧
    (⟨0, .signed 7 0 10 .REFRESH "k", .REFRESH, 10, false, 7⟩ : Token).user_id = 7 ∧
    (⟨0, .signed 7 0 10 .REFRESH "k", .REFRESH, 10, false, 7⟩ : Token).type = .REFRESH :=
  C3_sign_verify_roundtrip ⟨"k", 30, 1, 30, 30, fun s => s⟩ 7 0 10 5 .REFRESH
    ⟨[], [⟨0, .signed 7 0 10 .REFRESH "k", .REFRESH, 10, false, 7⟩], 1, false⟩
    ⟨0, .signed 7 0 10 .REFRESH "k", .REFRESH, 10, false, 7⟩
    (by decide) rfl (by decide)

/-- C4: once the expiry claim has been reached (current time ≥ exp, including
the boundary current time = exp), `jwt.verify` fails regardless of whether
the signature is valid; an unparsable token always fails; and for a token
signed with the matching key, verification fails exactly when
current time ≥ exp. -/
theorem C4_expiry_boundary (now uid iat exp : Nat) (ty : TokenType) (key secret : String) :
    (exp ≤ now → ∃ m, jwtVerify now (.signed uid iat exp ty key) secret = .error (.JwtError m)) ∧
    (∀ s, ∃ m, jwtVerify now (.garbage s) secret = .error (.JwtError m)) ∧
    (key = secret →
      ((∃ m, jwtVerify now (.signed uid iat exp ty key) secret = .error (.JwtError m)) ↔
        exp ≤ now)) := by
  refine ⟨?_, fun s => ⟨"jwt malformed", rfl⟩, ?_⟩
  · intro hle
    by_cases hk : key = secret
    · exact ⟨"jwt expired", by simp only [jwtVerify, if_pos hk, if_true, if_pos hle]⟩
    · exact ⟨"invalid signature", by simp only [jwtVerify, if_neg hk]⟩
  · rintro rfl
    constructor
    · rintro ⟨m, hm⟩
      by_contra hlt
      simp only [jwtVerify, if_pos rfl, if_true, if_neg hlt] at hm
      exact Except.noConfusion hm
    · intro hle
      exact ⟨"jwt expired", by simp only [jwtVerify, if_pos rfl, if_true, if_pos hle]⟩

/-- C4 witness (boundary: verification time equals the expiry claim). -/
theorem C4_expiry_boundary_witness :
    ∃ m, jwtVerify 10 (.signed 7 0 10 .ACCESS "wrongkey") "k" = .error (.JwtError m) :=
  (C4_expiry_boundary 10 7 0 10 .ACCESS "wrongkey" "k").1 (by decide)

/-- C5: login rejects with the one identical 401 "Incorrect email or
password" error both when no user has the email and when the password digest
mismatches, and on a match returns the user record with the password field
stripped. -/
theorem C5_login (cfg : Config) (email password : String) (db : DB)
    (hsd : db.storeDown = false) :
    (db.users.find? (fun u => u.email == email) = none →
      loginUserWithEmailAndPassword cfg email password db =
        (.error (.ApiError 401 "Incorrect email or password"), db)) ∧
    (∀ user, db.users.find? (fun u => u.email == email) = some user →
      (isPasswordMatch cfg password user.password = false →
        loginUserWithEmailAndPassword cfg email password db =
          (.error (.ApiError 401 "Incorrect email or password"), db)) ∧
      (isPasswordMatch cfg password user.password = true →
        loginUserWithEmailAndPassword cfg email password db = (.ok (exclude user), db))) := by
  refine ⟨fun hnone => ?_, fun user hsome => ⟨fun hmiss => ?_, fun hmatch => ?_⟩⟩
  · simp only [loginUserWithEmailAndPassword, hsd, Bool.false_eq_true, if_false, hnone]
  · simp only [loginUserWithEmailAndPassword, hsd, Bool.false_eq_true, if_false, hsome,
      hmiss, if_false]
  · simp only [loginUserWithEmailAndPassword, hsd, Bool.false_eq_true, if_false, hsome,
      hmatch, if_true]

/-- C5 witness: a stored digest of "secret123" logs in with "secret123" and
yields the record without the password field. -/
theorem C5_login_witness :
    loginUserWithEmailAndPassword ⟨"k", 30, 1, 30, 30, fun s => s ++ "$"⟩ "a@x.com" "secret123"
      ⟨[⟨1, "a@x.com", none, "secret123$", .USER, false⟩], [], 0, false⟩ =
      (.ok (exclude ⟨1, "a@x.com", none, "secret123$", .USER, false⟩),
       ⟨[⟨1, "a@x.com", none, "secret123$", .USER, false⟩], [], 0, false⟩) :=
  ((C5_login ⟨"k", 30, 1, 30, 30, fun s => s ++ "$"⟩ "a@x.com" "secret123"
      ⟨[⟨1, "a@x.com", none, "secret123$", .USER, false⟩], [], 0, false⟩ rfl).2
    ⟨1, "a@x.com", none, "secret123$", .USER, false⟩ (by decide)).2 (by decide)

/-- C8: requestPasswordReset fails with a surfaced 404 NotFound when no user
has the email; when a user matches, it mints a RESET_PASSWORD token with the
configured reset lifetime, persists it as a ledger row, and returns it. -/
theorem C8_requestPasswordReset (cfg : Config) (now : Nat) (email : String) (db : DB)
    (hsd : db.storeDown = false) :
    (db.users.find? (fun u => u.email == email) = none →
      generateResetPasswordToken cfg now email db =
        (.error (.ApiError 404 "No users found with this email"), db)) ∧
    (∀ user, db.users.find? (fun u => u.email == email) = some user →
      generateResetPasswordToken cfg now email db =
        (.ok (generateToken now user.id (now + cfg.resetPasswordExpirationMinutes * 60)
            .RESET_PASSWORD cfg.secret),
         { db with
            tokens := db.tokens ++
              [⟨db.nextTokenId,
                generateToken now user.id (now + cfg.resetPasswordExpirationMinutes * 60)
                  .RESET_PASSWORD cfg.secret,
                .RESET_PASSWORD, now + cfg.resetPasswordExpirationMinutes * 60, false, user.id⟩],
            nextTokenId := db.nextTokenId + 1 })) := by
  constructor
  · intro hnone
    simp only [generateResetPasswordToken, hsd, Bool.false_eq_true, if_false, hnone]
  · intro user hsome
    simp only [generateResetPasswordToken, hsd, Bool.false_eq_true, if_false, hsome,
      saveToken]

/-- C8 witness. -/
theorem C8_requestPasswordReset_witness :
    generateResetPasswordToken ⟨"k", 30, 1, 30, 30, fun s => s⟩ 100 "a@x.com"
      ⟨[⟨1, "a@x.com", none, "p", .USER, false⟩], [], 5, false⟩ =
      (.ok (generateToken 100 1 (100 + 30 * 60) .RESET_PASSWORD "k"),
       { users := [⟨1, "a@x.com", none, "p", .USER, false⟩],
         tokens := [⟨5, generateToken 100 1 (100 + 30 * 60) .RESET_PASSWORD "k",
           .RESET_PASSWORD, 100 + 30 * 60, false, 1⟩],
         nextTokenId := 6, storeDown := false }) :=
  (C8_requestPasswordReset ⟨"k", 30, 1, 30, 30, fun s => s⟩ 100 "a@x.com"
      ⟨[⟨1, "a@x.com", none, "p", .USER, false⟩], [], 5, false⟩ rfl).2
    ⟨1, "a@x.com", none, "p", .USER, false⟩ (by decide)

/-- C9: generateAuthTokens appends exactly one ledger row — the REFRESH
token — leaving every pre-existing ledger row and every user record
unchanged, and persists no row holding the ACCESS token. -/
theorem C9_generateAuthTokens_frame (cfg : Config) (now uid : Nat) (db : DB)
    (hsd : db.storeDown = false) :
    ∃ res db1, generateAuthTokens cfg now uid db = (.ok res, db1) ∧
      db1.users = db.users ∧
      db1.tokens = db.tokens ++
        [⟨db.nextTokenId, res.refresh.token, .REFRESH,
          now + cfg.refreshExpirationDays * 86400, false, uid⟩] ∧
      res.refresh.token =
        generateToken now uid (now + cfg.refreshExpirationDays * 86400) .REFRESH cfg.secret ∧
      res.access.token =
        generateToken now uid (now + cfg.accessExpirationMinutes * 60) .ACCESS cfg.secret ∧
      (∀ r ∈ db1.tokens, r.token = res.access.token → r ∈ db.tokens) := by
  refine ⟨⟨⟨generateToken now uid (now + cfg.accessExpirationMinutes * 60) .ACCESS cfg.secret,
      now + cfg.accessExpirationMinutes * 60⟩,
    ⟨generateToken now uid (now + cfg.refreshExpirationDays * 86400) .REFRESH cfg.secret,
      now + cfg.refreshExpirationDays * 86400⟩⟩,
    { db with
        tokens := db.tokens ++
          [⟨db.nextTokenId,
            generateToken now uid (now + cfg.refreshExpirationDays * 86400) .REFRESH cfg.secret,
            .REFRESH, now + cfg.refreshExpirationDays * 86400, false, uid⟩],
        nextTokenId := db.nextTokenId + 1 },
    ?_, rfl, rfl, rfl, rfl, ?_⟩
  · simp only [generateAuthTokens, saveToken, hsd, Bool.false_eq_true, if_false]
  · intro r hr htok
    rcases List.mem_append.mp hr with h | h
    · exact h
    · exfalso
      rcases List.mem_singleton.mp h with rfl
      simp only [generateToken, TokenStr.signed.injEq] at htok
      exact TokenType.noConfusion htok.2.2.2.1

/-- C9 witness. -/
theorem C9_generateAuthTokens_frame_witness :
    ∃ res db1,
      generateAuthTokens ⟨"k", 30, 1, 30, 30, fun s => s⟩ 100 1 ⟨[], [], 0, false⟩ =
        (.ok res, db1) ∧
      db1.users = ([] : List User) ∧
      db1.tokens = [] ++
        [⟨0, res.refresh.token, .REFRESH, 100 + 1 * 86400, false, 1⟩] ∧
      res.refresh.token = generateToken 100 1 (100 + 1 * 86400) .REFRESH "k" ∧
      res.access.token = generateToken 100 1 (100 + 30 * 60) .ACCESS "k" ∧
      (∀ r ∈ db1.tokens, r.token = res.access.token → r ∈ ([] : List Token)) :=
  C9_generateAuthTokens_frame ⟨"k", 30, 1, 30, 30, fun s => s⟩ 100 1 ⟨[], [], 0, false⟩ rfl

/-- C10: with a validly signed, unexpired VERIFY_EMAIL token whose
non-blacklisted ledger entry exists but whose owner has no user record,
verifyEmail reports failure (401 "Email verification failed") yet has already
deleted every VERIFY_EMAIL ledger row of that owner — the purge precedes the
user update, so the ledger changes on this error path. -/
theorem C10_verifyEmail_nonatomic (cfg : Config) (now uid iat exp : Nat) (db : DB)
    (row : Token)
    (hsd : db.storeDown = false)
    (hexp : now < exp)
    (hfind : db.tokens.find?
      (matchesToken (.signed uid iat exp .VERIFY_EMAIL cfg.secret) .VERIFY_EMAIL uid) =
      some row)
    (hnouser : db.users.find? (fun u => u.id == row.user_id) = none) :
    verifyEmail cfg now (.signed uid iat exp .VERIFY_EMAIL cfg.secret) db =
      (.error (.ApiError 401 "Email verification failed"),
       { db with tokens := db.tokens.filter (fun r =>
           !(r.user_id == row.user_id && r.type == TokenType.VERIFY_EMAIL)) }) ∧
    row ∉ (verifyEmail cfg now (.signed uid iat exp .VERIFY_EMAIL cfg.secret) db).2.tokens := by
  have hvt := verifyToken_eq_ok cfg now uid iat exp .VERIFY_EMAIL .VERIFY_EMAIL db row hsd
    hexp hfind
  have hrow := matchesToken_eq_true _ _ _ _ (List.find?_some hfind)
  have hmain : verifyEmail cfg now (.signed uid iat exp .VERIFY_EMAIL cfg.secret) db =
      (.error (.ApiError 401 "Email verification failed"),
       { db with tokens := db.tokens.filter (fun r =>
           !(r.user_id == row.user_id && r.type == TokenType.VERIFY_EMAIL)) }) := by
    simp only [verifyEmail, hvt, hsd, Bool.false_eq_true, if_false, updateUserById,
      hnouser, Option.isNone_none, if_true]
  refine ⟨hmain, ?_⟩
  rw [hmain]
  intro hmem
  have := (List.mem_filter.mp hmem).2
  simp only [beq_self_eq_true, Bool.true_and, hrow.2.1, Bool.not_eq_eq_eq_not, Bool.not_true,
    beq_iff_eq] at this
  exact Bool.noConfusion this

/-- C10 witness. -/
theorem C10_verifyEmail_nonatomic_witness :
    verifyEmail ⟨"k", 30, 1, 30, 30, fun s => s⟩ 5 (.signed 9 0 10 .VERIFY_EMAIL "k")
      ⟨[], [⟨0, .signed 9 0 10 .VERIFY_EMAIL "k", .VERIFY_EMAIL, 10, false, 9⟩], 1, false⟩ =
      (.error (.ApiError 401 "Email verification failed"),
       { users := [],
         tokens := [⟨0, .signed 9 0 10 .VERIFY_EMAIL "k", .VERIFY_EMAIL, 10, false, 9⟩].filter
           (fun r => !(r.user_id == 9 && r.type == TokenType.VERIFY_EMAIL)),
         nextTokenId := 1, storeDown := false }) ∧
    (⟨0, .signed 9 0 10 .VERIFY_EMAIL "k", .VERIFY_EMAIL, 10, false, 9⟩ : Token) ∉
      (verifyEmail ⟨"k", 30, 1, 30, 30, fun s => s⟩ 5 (.signed 9 0 10 .VERIFY_EMAIL "k")
        ⟨[], [⟨0, .signed 9 0 10 .VERIFY_EMAIL "k", .VERIFY_EMAIL, 10, false, 9⟩], 1,
          false⟩).2.tokens :=
  C10_verifyEmail_nonatomic ⟨"k", 30, 1, 30, 30, fun s => s⟩ 5 9 0 10
    ⟨[], [⟨0, .signed 9 0 10 .VERIFY_EMAIL "k", .VERIFY_EMAIL, 10, false, 9⟩], 1, false⟩
    ⟨0, .signed 9 0 10 .VERIFY_EMAIL "k", .VERIFY_EMAIL, 10, false, 9⟩
    rfl (by decide) (by decide) rfl

/-- C7 counterexample: with the store down (every knex access rejecting with
a connectivity error) and a validly signed unexpired renewal token, refresh
does NOT propagate the store failure: its catch-all re-maps it to
401 "Please authenticate". -/
theorem C7_counterexample :
    (refreshAuth ⟨"k", 30, 1, 30, 30, fun s => s⟩ 5 (.signed 1 0 86400 .REFRESH "k")
        ⟨[⟨1, "a@x.com", none, "p", .USER, false⟩],
         [⟨0, .signed 1 0 86400 .REFRESH "k", .REFRESH, 86400, false, 1⟩], 1, true⟩).1 =
      .error (.ApiError 401 "Please authenticate") ∧
    Err.ApiError 401 "Please authenticate" ≠ Err.StoreFailure := by
  exact ⟨rfl, by decide⟩

/-- C7 amended: store-connectivity failures propagate uncaught (as
`StoreFailure`) only from login, logout and requestPasswordReset; refresh,
resetPassword and verifyEmail wrap their entire bodies in a catch-all that
re-maps every thrown error — store failures included — to their coarse
taxonomy error (Unauthenticated / ResetFailed / VerificationFailed). -/
theorem C7_amended (cfg : Config) (now : Nat) (t : TokenStr) (email password : String)
    (db : DB) (hdown : db.storeDown = true) :
    loginUserWithEmailAndPassword cfg email password db = (.error .StoreFailure, db) ∧
    logout t db = (.error .StoreFailure, db) ∧
    generateResetPasswordToken cfg now email db = (.error .StoreFailure, db) ∧
    refreshAuth cfg now t db = (.error (.ApiError 401 "Please authenticate"), db) ∧
    resetPassword cfg now t password db = (.error (.ApiError 401 "Password reset failed"), db) ∧
    verifyEmail cfg now t db = (.error (.ApiError 401 "Email verification failed"), db) := by
  have hvt : ∀ ty, verifyToken cfg now t ty db = ((verifyToken cfg now t ty db).1, db) ∧
      ∃ e, (verifyToken cfg now t ty db).1 = .error e := by
    intro ty
    simp only [verifyToken]
    cases jwtVerify now t cfg.secret with
    | error e => exact ⟨rfl, e, rfl⟩
    | ok payload =>
        exact ⟨by simp only [hdown, if_true], .StoreFailure, by simp only [hdown, if_true]⟩
  refine ⟨?_, ?_, ?_, ?_, ?_, ?_⟩
  · simp only [loginUserWithEmailAndPassword, hdown, if_true]
  · simp only [logout, hdown, if_true]
  · simp only [generateResetPasswordToken, hdown, if_true]
  · obtain ⟨heq, e, he⟩ := hvt .REFRESH
    simp only [refreshAuth]
    rw [heq, he]
  · obtain ⟨heq, e, he⟩ := hvt .RESET_PASSWORD
    simp only [resetPassword]
    rw [heq, he]
  · obtain ⟨heq, e, he⟩ := hvt .VERIFY_EMAIL
    simp only [verifyEmail]
    rw [heq, he]

/-- C7 amended witness. -/
theorem C7_amended_witness :
    loginUserWithEmailAndPassword ⟨"k", 30, 1, 30, 30, fun s => s⟩ "a@x.com" "p"
        ⟨[], [], 0, true⟩ = (.error .StoreFailure, ⟨[], [], 0, true⟩) ∧
    logout (.garbage "x") ⟨[], [], 0, true⟩ = (.error .StoreFailure, ⟨[], [], 0, true⟩) ∧
    generateResetPasswordToken ⟨"k", 30, 1, 30, 30, fun s => s⟩ 0 "a@x.com" ⟨[], [], 0, true⟩ =
      (.error .StoreFailure, ⟨[], [], 0, true⟩) ∧
    refreshAuth ⟨"k", 30, 1, 30, 30, fun s => s⟩ 0 (.garbage "x") ⟨[], [], 0, true⟩ =
      (.error (.ApiError 401 "Please authenticate"), ⟨[], [], 0, true⟩) ∧
    resetPassword ⟨"k", 30, 1, 30, 30, fun s => s⟩ 0 (.garbage "x") "p" ⟨[], [], 0, true⟩ =
      (.error (.ApiError 401 "Password reset failed"), ⟨[], [], 0, true⟩) ∧
    verifyEmail ⟨"k", 30, 1, 30, 30, fun s => s⟩ 0 (.garbage "x") ⟨[], [], 0, true⟩ =
      (.error (.ApiError 401 "Email verification failed"), ⟨[], [], 0, true⟩) :=
  C7_amended ⟨"k", 30, 1, 30, 30, fun s => s⟩ 0 (.garbage "x") "a@x.com" "p"
    ⟨[], [], 0, true⟩ rfl

/-- If verification throws, refresh re-maps to 401. -/
theorem refreshAuth_err_of_verify_err (cfg : Config) (now : Nat) (t : TokenStr) (db db' : DB)
    (e : Err) (h : verifyToken cfg now t .REFRESH db = (.error e, db')) :
    refreshAuth cfg now t db = (.error (.ApiError 401 "Please authenticate"), db') := by
  simp only [refreshAuth, h]

/-- With the store up and no matching ledger row, `verifyToken` throws and
leaves the store unchanged. -/
theorem verifyToken_err_of_no_match (cfg : Config) (now uid iat exp : Nat)
    (ty0 ty : TokenType) (db : DB)
    (hsd : db.storeDown = false)
    (hnone : db.tokens.find? (matchesToken (.signed uid iat exp ty0 cfg.secret) ty uid) = none) :
    ∃ e, verifyToken cfg now (.signed uid iat exp ty0 cfg.secret) ty db = (.error e, db) := by
  by_cases hle : exp ≤ now
  · exact ⟨.JwtError "jwt expired", by
      simp only [verifyToken, jwtVerify, if_pos rfl, if_true, if_pos hle]⟩
  · exact ⟨.TokenNotFoundError, by
      simp only [verifyToken, jwtVerify, if_pos rfl, if_true, if_neg hle, hsd,
        Bool.false_eq_true, if_false, hnone]⟩

/-- A refresh with a token matching no ledger row (for any owner) fails with
401, whatever the token's signature or expiry state. -/
theorem refreshAuth_401_of_no_match (cfg : Config) (now : Nat) (t : TokenStr) (db : DB)
    (hsd : db.storeDown = false)
    (hno : ∀ uid, db.tokens.find? (matchesToken t .REFRESH uid) = none) :
    (refreshAuth cfg now t db).1 = .error (.ApiError 401 "Please authenticate") := by
  cases t with
  | garbage s =>
      have h : verifyToken cfg now (.garbage s) .REFRESH db =
          (.error (.JwtError "jwt malformed"), db) := by
        simp only [verifyToken, jwtVerify]
      rw [refreshAuth_err_of_verify_err cfg now _ db db _ h]
  | signed sub iat exp ty0 key =>
      by_cases hk : key = cfg.secret
      · subst hk
        obtain ⟨e, he⟩ :=
          verifyToken_err_of_no_match cfg now sub iat exp ty0 .REFRESH db hsd (hno sub)
        rw [refreshAuth_err_of_verify_err cfg now _ db db _ he]
      · have h : verifyToken cfg now (.signed sub iat exp ty0 key) .REFRESH db =
            (.error (.JwtError "invalid signature"), db) := by
          simp only [verifyToken, jwtVerify, if_neg hk]
        rw [refreshAuth_err_of_verify_err cfg now _ db db _ h]

/-- A correctly signed token whose expiry claim has been reached fails
verification with "jwt expired" on any store state. -/
theorem verifyToken_err_of_expired (cfg : Config) (now uid iat exp : Nat)
    (ty0 ty : TokenType) (db : DB) (hle : exp ≤ now) :
    verifyToken cfg now (.signed uid iat exp ty0 cfg.secret) ty db =
      (.error (.JwtError "jwt expired"), db) := by
  simp only [verifyToken, jwtVerify, if_pos rfl, if_true, if_pos hle]

/-- If verification throws, resetPassword re-maps to 401. -/
theorem resetPassword_err_of_verify_err (cfg : Config) (now : Nat) (t : TokenStr)
    (pw : String) (db db' : DB) (e : Err)
    (h : verifyToken cfg now t .RESET_PASSWORD db = (.error e, db')) :
    resetPassword cfg now t pw db = (.error (.ApiError 401 "Password reset failed"), db') := by
  simp only [resetPassword, h]

/-- A password reset with a correctly signed token that matches no ledger
row fails with 401, whatever its expiry state. -/
theorem resetPassword_401_of_no_match (cfg : Config) (now uid iat exp : Nat)
    (pw : String) (db : DB)
    (hsd : db.storeDown = false)
    (hnone : db.tokens.find? (matchesToken (.signed uid iat exp .RESET_PASSWORD cfg.secret)
      .RESET_PASSWORD uid) = none) :
    (resetPassword cfg now (.signed uid iat exp .RESET_PASSWORD cfg.secret) pw db).1 =
      .error (.ApiError 401 "Password reset failed") := by
  by_cases hle : exp ≤ now
  · rw [resetPassword_err_of_verify_err _ _ _ _ _ _ _
      (verifyToken_err_of_expired cfg now uid iat exp .RESET_PASSWORD .RESET_PASSWORD db hle)]
  · obtain ⟨e, he⟩ := verifyToken_err_of_no_match cfg now uid iat exp .RESET_PASSWORD
      .RESET_PASSWORD db hsd hnone
    rw [resetPassword_err_of_verify_err _ _ _ _ _ _ _ he]

/-- C1 counterexample: jwt.sign is deterministic, so refreshing in the same
unix second the renewal token was minted (with the same configured lifetime)
reissues the string-identical token; both the first and a second sequential
refresh with the old token succeed, so the old renewal token is NOT
single-use as claimed. Here the ledger state is the one produced by
`generateAuthTokens` at time 0 and both refresh calls succeed. -/
theorem C1_counterexample :
    isOkE (refreshAuth cfgEx 0 tEx
      (generateAuthTokens cfgEx 0 1 ⟨[userEx], [], 0, false⟩).2).1 = true ∧
    isOkE (refreshAuth cfgEx 5 tEx
      (refreshAuth cfgEx 0 tEx
        (generateAuthTokens cfgEx 0 1 ⟨[userEx], [], 0, false⟩).2).2).1 = true := by
  decide

/-- C1 (amended): for a valid renewal token t whose single matching ledger
row is `row`, the first refresh succeeds, deletes the row, and returns a new
access+renewal pair; PROVIDED the replacement renewal token string differs
from t (which fails exactly when the refresh happens in the same unix second
as t's issuance with the same configured lifetime) and no other ledger row
matches t, every subsequent refresh with t fails with 401 Unauthenticated. -/
theorem C1_amended (cfg : Config) (now1 now2 uid iat exp : Nat) (t : TokenStr) (db : DB)
    (row : Token)
    (ht : t = .signed uid iat exp .REFRESH cfg.secret)
    (hsd : db.storeDown = false)
    (hexp : now1 < exp)
    (hfind : db.tokens.find? (matchesToken t .REFRESH uid) = some row)
    (huniq : ∀ r ∈ db.tokens, matchesToken t .REFRESH uid r = true → r.id = row.id)
    (hfresh : generateToken now1 uid (now1 + cfg.refreshExpirationDays * 86400) .REFRESH
      cfg.secret ≠ t) :
    ∃ res db1,
      refreshAuth cfg now1 t db = (.ok res, db1) ∧
      row ∉ db1.tokens ∧
      res.refresh.token ≠ t ∧
      (refreshAuth cfg now2 t db1).1 = .error (.ApiError 401 "Please authenticate") := by
  subst ht
  have hvt := verifyToken_eq_ok cfg now1 uid iat exp .REFRESH .REFRESH db row hsd hexp hfind
  obtain ⟨hrt, hrty, hruid, hrbl⟩ := matchesToken_eq_true _ _ _ _ (List.find?_some hfind)
  have hmain : refreshAuth cfg now1 (.signed uid iat exp .REFRESH cfg.secret) db =
      (.ok ⟨⟨generateToken now1 uid (now1 + cfg.accessExpirationMinutes * 60) .ACCESS cfg.secret,
          now1 + cfg.accessExpirationMinutes * 60⟩,
        ⟨generateToken now1 uid (now1 + cfg.refreshExpirationDays * 86400) .REFRESH cfg.secret,
          now1 + cfg.refreshExpirationDays * 86400⟩⟩,
       { db with
          tokens := db.tokens.filter (fun r => r.id != row.id) ++
            [⟨db.nextTokenId,
              generateToken now1 uid (now1 + cfg.refreshExpirationDays * 86400) .REFRESH
                cfg.secret,
              .REFRESH, now1 + cfg.refreshExpirationDays * 86400, false, uid⟩],
          nextTokenId := db.nextTokenId + 1 }) := by
    simp only [refreshAuth, hvt, hsd, Bool.false_eq_true, if_false, generateAuthTokens,
      saveToken, generateToken, hruid]
  refine ⟨_, _, hmain, ?_, ?_, ?_⟩
  · intro hmem
    rcases List.mem_append.mp hmem with h | h
    · have := (List.mem_filter.mp h).2
      simp only [bne_self_eq_false] at this
      exact Bool.noConfusion this
    · rcases List.mem_singleton.mp h with rfl
      exact hfresh hrt
  · exact hfresh
  · have hnone : (db.tokens.filter (fun r => r.id != row.id) ++
        [(⟨db.nextTokenId,
          generateToken now1 uid (now1 + cfg.refreshExpirationDays * 86400) .REFRESH cfg.secret,
          .REFRESH, now1 + cfg.refreshExpirationDays * 86400, false, uid⟩ : Token)]).find?
        (matchesToken (.signed uid iat exp .REFRESH cfg.secret) .REFRESH uid) = none := by
      rw [List.find?_eq_none]
      intro x hx hmt
      rcases List.mem_append.mp hx with h | h
      · obtain ⟨hxmem, hxid⟩ := List.mem_filter.mp h
        have := huniq x hxmem hmt
        rw [this, bne_self_eq_false] at hxid
        exact Bool.noConfusion hxid
      · rcases List.mem_singleton.mp h with rfl
        exact hfresh (matchesToken_eq_true _ _ _ _ hmt).1
    obtain ⟨e, he⟩ := verifyToken_err_of_no_match cfg now2 uid iat exp .REFRESH .REFRESH
      { db with
          tokens := db.tokens.filter (fun r => r.id != row.id) ++
            [⟨db.nextTokenId,
              generateToken now1 uid (now1 + cfg.refreshExpirationDays * 86400) .REFRESH
                cfg.secret,
              .REFRESH, now1 + cfg.refreshExpirationDays * 86400, false, uid⟩],
          nextTokenId := db.nextTokenId + 1 } hsd hnone
    rw [refreshAuth_err_of_verify_err cfg now2 _ _ _ e he]

/-- C1 amended witness: refresh at second 10 of a token minted at second 0. -/
theorem C1_amended_witness :
    ∃ res db1,
      refreshAuth cfgEx 10 tEx
        ⟨[userEx], [⟨0, tEx, .REFRESH, 86400, false, 1⟩], 1, false⟩ = (.ok res, db1) ∧
      (⟨0, tEx, .REFRESH, 86400, false, 1⟩ : Token) ∉ db1.tokens ∧
      res.refresh.token ≠ tEx ∧
      (refreshAuth cfgEx 20 tEx db1).1 = .error (.ApiError 401 "Please authenticate") :=
  C1_amended cfgEx 10 20 1 0 86400 tEx
    ⟨[userEx], [⟨0, tEx, .REFRESH, 86400, false, 1⟩], 1, false⟩
    ⟨0, tEx, .REFRESH, 86400, false, 1⟩
    rfl rfl (by decide) (by decide) (by decide) (by decide)

/-- C6 counterexample: token strings are not unique in the ledger — two
`generateAuthTokens` calls for the same user in the same unix second insert
two rows holding the identical token string. logout deletes only the first
matching row, so a subsequent refresh with the same token still succeeds
instead of failing with Unauthenticated. -/
theorem C6_counterexample :
    isOkE (logout tEx (generateAuthTokens cfgEx 0 1
        (generateAuthTokens cfgEx 0 1 ⟨[userEx], [], 0, false⟩).2).2).1 = true ∧
    isOkE (refreshAuth cfgEx 5 tEx
      (logout tEx (generateAuthTokens cfgEx 0 1
        (generateAuthTokens cfgEx 0 1 ⟨[userEx], [], 0, false⟩).2).2).2).1 = true := by
  decide

/-- C6 (amended): when EXACTLY ONE non-blacklisted RENEWAL ledger row matches
t, logout(t) deletes that entry and a subsequent refresh(t) fails with 401
Unauthenticated; logout fails with 404 NotFound when no entry matches. -/
theorem C6_amended (cfg : Config) (now2 : Nat) (t : TokenStr) (db : DB) (row : Token)
    (hsd : db.storeDown = false)
    (hfind : db.tokens.find? (fun r =>
      r.token == t && r.type == TokenType.REFRESH && r.blacklisted == false) = some row)
    (huniq : ∀ r ∈ db.tokens,
      (r.token == t && r.type == TokenType.REFRESH && r.blacklisted == false) = true →
        r.id = row.id) :
    (∃ db1, logout t db = (.ok (), db1) ∧
      row ∉ db1.tokens ∧
      (refreshAuth cfg now2 t db1).1 = .error (.ApiError 401 "Please authenticate")) ∧
    (∀ db0 : DB, db0.storeDown = false →
      db0.tokens.find? (fun r =>
        r.token == t && r.type == TokenType.REFRESH && r.blacklisted == false) = none →
      logout t db0 = (.error (.ApiError 404 "Not found"), db0)) := by
  constructor
  · have hmain : logout t db =
        (.ok (), { db with tokens := db.tokens.filter (fun r => r.id != row.id) }) := by
      simp only [logout, hsd, Bool.false_eq_true, if_false, hfind]
    refine ⟨_, hmain, ?_, ?_⟩
    · intro hmem
      have := (List.mem_filter.mp hmem).2
      simp only [bne_self_eq_false] at this
      exact Bool.noConfusion this
    · refine refreshAuth_401_of_no_match cfg now2 t _ hsd ?_
      intro uid
      rw [List.find?_eq_none]
      intro x hx hmt
      obtain ⟨hxmem, hxid⟩ := List.mem_filter.mp hx
      obtain ⟨h1, h2, h3, h4⟩ := matchesToken_eq_true _ _ _ _ hmt
      have : x.id = row.id := by
        refine huniq x hxmem ?_
        simp only [Bool.and_eq_true, beq_iff_eq]
        exact ⟨⟨h1, h2⟩, h4⟩
      rw [this, bne_self_eq_false] at hxid
      exact Bool.noConfusion hxid
  · intro db0 hsd0 hnone0
    simp only [logout, hsd0, Bool.false_eq_true, if_false, hnone0]

/-- C6 amended witness: single matching row. -/
theorem C6_amended_witness :
    (∃ db1, logout tEx ⟨[userEx], [⟨0, tEx, .REFRESH, 86400, false, 1⟩], 1, false⟩ =
        (.ok (), db1) ∧
      (⟨0, tEx, .REFRESH, 86400, false, 1⟩ : Token) ∉ db1.tokens ∧
      (refreshAuth cfgEx 5 tEx db1).1 = .error (.ApiError 401 "Please authenticate")) ∧
    (∀ db0 : DB, db0.storeDown = false →
      db0.tokens.find? (fun r =>
        r.token == tEx && r.type == TokenType.REFRESH && r.blacklisted == false) = none →
      logout tEx db0 = (.error (.ApiError 404 "Not found"), db0)) :=
  C6_amended cfgEx 5 tEx ⟨[userEx], [⟨0, tEx, .REFRESH, 86400, false, 1⟩], 1, false⟩
    ⟨0, tEx, .REFRESH, 86400, false, 1⟩ rfl (by decide) (by decide)

/-- C2: a successful completePasswordReset with a valid reset token updates
the owner's password to the digest of the new password and deletes ALL
RESET_PASSWORD ledger rows of that owner, so a later completePasswordReset
with ANY reset token issued to that owner (any iat/exp) fails with 401
"Password reset failed". -/
theorem C2_resetPassword (cfg : Config) (now1 uid iat exp : Nat) (t : TokenStr)
    (newPassword : String) (db : DB) (row : Token) (user : User)
    (ht : t = .signed uid iat exp .RESET_PASSWORD cfg.secret)
    (hsd : db.storeDown = false)
    (hexp : now1 < exp)
    (hfind : db.tokens.find? (matchesToken t .RESET_PASSWORD uid) = some row)
    (huser : db.users.find? (fun u => u.id == row.user_id) = some user) :
    ∃ db1, resetPassword cfg now1 t newPassword db = (.ok (), db1) ∧
      (∀ u ∈ db1.users, u.id = user.id → u.password = encryptPassword cfg newPassword) ∧
      (∀ r ∈ db1.tokens, ¬(r.user_id = user.id ∧ r.type = TokenType.RESET_PASSWORD)) ∧
      (∀ now2 iat2 exp2 pw2,
        (resetPassword cfg now2 (.signed user.id iat2 exp2 .RESET_PASSWORD cfg.secret) pw2
          db1).1 = .error (.ApiError 401 "Password reset failed")) := by
  subst ht
  have hvt := verifyToken_eq_ok cfg now1 uid iat exp .RESET_PASSWORD .RESET_PASSWORD db row
    hsd hexp hfind
  obtain ⟨hrt, hrty, hruid, hrbl⟩ := matchesToken_eq_true _ _ _ _ (List.find?_some hfind)
  have huid : user.id = row.user_id := by
    have := List.find?_some huser
    exact beq_iff_eq.mp this
  have hu2 : user.id = uid := huid.trans hruid
  have huser2 : db.users.find? (fun u => u.id == uid) = some user := by
    rw [← hruid]
    exact huser
  have hmain : resetPassword cfg now1 (.signed uid iat exp .RESET_PASSWORD cfg.secret)
      newPassword db =
      (.ok (),
       { db with
          users := db.users.map (fun u =>
            if u.id == uid then
              applyUpdate ⟨none, some (encryptPassword cfg newPassword), none⟩ u
            else u),
          tokens := db.tokens.filter (fun r =>
            !(r.user_id == uid && r.type == TokenType.RESET_PASSWORD)) }) := by
    simp only [resetPassword, hvt, hsd, Bool.false_eq_true, if_false, hruid, huser2,
      updateUserById, hu2, Option.isNone_some, Option.isSome_none, Bool.false_and,
      if_false, encryptPassword]
  refine ⟨_, hmain, ?_, ?_, ?_⟩
  · intro u hu hid
    obtain ⟨u0, hu0, rfl⟩ := List.mem_map.mp hu
    by_cases h0 : u0.id == uid
    · simp only [h0, if_true, applyUpdate, Option.getD_some]
    · rw [if_neg (by simp only [h0]; exact Bool.noConfusion)] at hid
      exfalso
      exact absurd (hid.trans hu2) (by simpa using h0)
  · intro r hr
    have := (List.mem_filter.mp hr).2
    simp only [Bool.not_eq_eq_eq_not, Bool.not_true, Bool.and_eq_false_iff,
      beq_eq_false_iff_ne, ne_eq] at this
    rw [hu2]
    rintro ⟨h1, h2⟩
    rcases this with h | h
    · exact h h1
    · exact h h2
  · intro now2 iat2 exp2 pw2
    rw [hu2]
    refine resetPassword_401_of_no_match cfg now2 uid iat2 exp2 pw2 _ ?_ ?_
    · exact hsd
    · rw [List.find?_eq_none]
      intro x hx hmt
      have hpred := (List.mem_filter.mp hx).2
      obtain ⟨h1, h2, h3, h4⟩ := matchesToken_eq_true _ _ _ _ hmt
      simp only [h2, h3, beq_self_eq_true, Bool.and_true, Bool.true_and,
        Bool.not_eq_eq_eq_not, Bool.not_true, beq_iff_eq] at hpred
      exact Bool.noConfusion hpred

/-- C2 witness: two outstanding reset tokens; consuming the first kills both. -/
theorem C2_resetPassword_witness :
    ∃ db1, resetPassword cfgEx 5 (.signed 1 0 1800 .RESET_PASSWORD "k") "newpass1"
        ⟨[userEx],
         [⟨0, .signed 1 0 1800 .RESET_PASSWORD "k", .RESET_PASSWORD, 1800, false, 1⟩,
          ⟨1, .signed 1 2 1802 .RESET_PASSWORD "k", .RESET_PASSWORD, 1802, false, 1⟩],
         2, false⟩ = (.ok (), db1) ∧
      (∀ u ∈ db1.users, u.id = userEx.id → u.password = encryptPassword cfgEx "newpass1") ∧
      (∀ r ∈ db1.tokens, ¬(r.user_id = userEx.id ∧ r.type = TokenType.RESET_PASSWORD)) ∧
      (∀ now2 iat2 exp2 pw2,
        (resetPassword cfgEx now2 (.signed userEx.id iat2 exp2 .RESET_PASSWORD cfgEx.secret)
          pw2 db1).1 = .error (.ApiError 401 "Password reset failed")) :=
  C2_resetPassword cfgEx 5 1 0 1800 (.signed 1 0 1800 .RESET_PASSWORD "k") "newpass1"
    ⟨[userEx],
     [⟨0, .signed 1 0 1800 .RESET_PASSWORD "k", .RESET_PASSWORD, 1800, false, 1⟩,
      ⟨1, .signed 1 2 1802 .RESET_PASSWORD "k", .RESET_PASSWORD, 1802, false, 1⟩],
     2, false⟩
    ⟨0, .signed 1 0 1800 .RESET_PASSWORD "k", .RESET_PASSWORD, 1800, false, 1⟩
    userEx rfl rfl (by decide) (by decide) (by decide)

end BookStore
